import Mathlib

/-!
Shallow embedding of `src/app.py` (TrackTik bulk PDF downloader).

Python strings are modelled as `List Char` and byte strings as `List Nat`
(one `Nat`, 0..255, per byte).  HTTP traffic, HTML parsing (BeautifulSoup)
and the `requests.Session` object are external to the program; they enter
the embedding as oracle values/functions supplied by the environment, while
every decision the script itself makes (status checks, the `%PDF` signature
test, CSRF extraction flow, filename construction, the fetch loop) is
translated statement by statement from `app.py`.
-/

/-- Python `str` — a sequence of unicode characters. -/
abbrev Str := List Char

/-- Python `bytes` — a sequence of byte values. -/
abbrev Bytes := List Nat

/-! ### `safe_filename` (app.py lines 17–19)

`re.sub(r'[\\/*?:"<>|]', "_", str(s))` replaces every occurrence of one of
the nine listed characters by a single underscore, character by character. -/

/-- The character class of the regex `[\\/*?:"<>|]` in `safe_filename`. -/
def forbiddenChars : List Char := ['\\', '/', '*', '?', ':', '\"', '<', '>', '|']

/-- `safe_filename` (app.py line 19): each forbidden character becomes `_`,
every other character is kept. -/
def safe_filename (s : Str) : Str :=
  s.map (fun c => if c ∈ forbiddenChars then '_' else c)

/-! ### Model of `urllib.parse.urljoin` for the reference patterns used in app.py

app.py calls `urljoin` with a second argument that is either `""`
(line 24) or an absolute-path reference starting with `/` (lines 51 and
103).  For an absolute base `scheme://netloc...`:
  * `urljoin(base, "")` returns the base itself (app.py passes it with no
    fragment);
  * `urljoin(base, "/p...")` keeps the base's scheme and authority and
    replaces its whole path with `/p...` (RFC 3986 §5.3, as implemented by
    `urllib.parse`): the result is `scheme://netloc/p...`.
Other reference shapes never occur in app.py and are not modelled. -/

/-- Characters of `u` after the first occurrence of `"://"`; `none` when the
base has no scheme separator (never the case for the URLs app.py is given). -/
def afterSchemeSep : Str → Option Str
  | ':' :: '/' :: '/' :: rest => some rest
  | _ :: rest => afterSchemeSep rest
  | [] => none

/-- The `scheme://netloc` part of an absolute URL: everything up to the first
`/`, `?` or `#` after the `"://"` separator. -/
def schemeAuthority (u : Str) : Str :=
  match afterSchemeSep u with
  | none => u
  | some rest =>
    let netloc := rest.takeWhile (fun c => c ≠ '/' ∧ c ≠ '?' ∧ c ≠ '#')
    u.take (u.length - rest.length) ++ netloc

/-- `urljoin(base, url)` for the two reference shapes app.py uses. -/
def urljoinModel (base url : Str) : Str :=
  match url with
  | [] => base
  | '/' :: _ => schemeAuthority base ++ url
  | _ => schemeAuthority base ++ url   -- unreachable for app.py's call sites

/-! ### HTTP outcomes

A `session.get`/`session.post` call either raises an exception or produces a
response with a status code and a body (`r.text : Str` for the login flow,
`r.content : Bytes` for the PDF fetches). -/

/-- Outcome of one HTTP request, body type `β`. -/
inductive HttpOutcome (β : Type) where
  | exn (msg : Str)
  | resp (status : Nat) (body : β)
  deriving DecidableEq, Repr

/-! ### `perform_login` (app.py lines 21–64) -/

/-- The `<input name="_csrf_token">` element as bs4 delivers it:
`token_input.get("value")` is the (possibly absent) `value` attribute. -/
structure TokenInput where
  value : Option Str
  deriving DecidableEq, Repr

/-- The form-encoded POST body built at app.py lines 43–49. -/
structure LoginPayload where
  email : Str
  password : Str
  csrf : Option Str
  locale : Str
  submit : Str
  deriving DecidableEq, Repr

/-- The payload dict of app.py lines 43–49 (`locale = "en_us"`,
`submit = "Login"`; the CSRF field holds whatever `token_input.get("value")`
returned). -/
def mkPayload (username password : Str) (tok : Option Str) : LoginPayload :=
  ⟨username, password, tok, "en_us".toList, "Login".toList⟩

/-- The messages `perform_login` returns, one constructor per `return`
statement (app.py lines 30, 33, 39, 56, 60, 62, 64), with the data the
f-string interpolates. -/
inductive LoginMsg where
  | couldNotLoadExn (m : Str)      -- line 30
  | couldNotLoadStatus (s : Nat)   -- line 33
  | tokenNotFound                  -- line 39
  | requestFailed (m : Str)        -- line 56
  | loginSuccessful                -- line 60
  | loginSent                      -- line 62
  | loginFailed (s : Nat)          -- line 64
  deriving DecidableEq, Repr

/-- The environment `perform_login` interacts with: the fresh
`requests.Session()` (line 23), the outcome of the GET of the login page
(line 28), BeautifulSoup's `find("input", {"name": "_csrf_token"})` on the
page text (line 37; `none` when no such element exists — a bs4 `Tag` is
always truthy, so `if not token_input` fires exactly on `None`), and the
outcome of the login POST (line 54) as a function of the payload sent. -/
structure LoginEnv (S : Type) where
  newSession : S
  getPage : HttpOutcome Str
  findTokenInput : Str → Option TokenInput
  post : LoginPayload → HttpOutcome Str

/-- What a `perform_login` run produced: the returned session (if any), the
returned message, and the POST that was issued (`none` when control returned
before line 54). -/
structure LoginTrace (S : Type) where
  result : Option S
  msg : LoginMsg
  posted : Option LoginPayload

/-- `"logout" in resp.text.lower()` (app.py line 59).  Python's `str.lower`
agrees with `Char.toLower` on the ASCII letters that could ever spell
`logout`. -/
def containsLogout (body : Str) : Bool :=
  decide ("logout".toList <:+: body.map Char.toLower)

/-- `perform_login` (app.py lines 21–64), statement by statement. -/
def perform_login {S : Type} (username password : Str) (env : LoginEnv S) :
    LoginTrace S :=
  -- line 23: session = requests.Session()
  let session := env.newSession
  -- lines 27–30: GET login page
  match env.getPage with
  | .exn m => ⟨none, .couldNotLoadExn m, none⟩
  | .resp status text =>
    -- lines 32–33
    if status ≠ 200 then ⟨none, .couldNotLoadStatus status, none⟩
    else
      -- lines 36–40
      match env.findTokenInput text with
      | none => ⟨none, .tokenNotFound, none⟩
      | some tokenInput =>
        let csrfToken := tokenInput.value
        -- lines 43–51
        let payload := mkPayload username password csrfToken
        -- lines 53–56
        match env.post payload with
        | .exn m => ⟨none, .requestFailed m, some payload⟩
        | .resp st2 text2 =>
          -- lines 58–64
          if st2 = 200 ∧ containsLogout text2 = true then
            ⟨some session, .loginSuccessful, some payload⟩
          else if st2 = 200 ∨ st2 = 302 then
            ⟨some session, .loginSent, some payload⟩
          else
            ⟨none, .loginFailed st2, some payload⟩

/-! ### The fetch loop (app.py lines 86–146) -/

/-- One CSV row restricted to the four required columns
(`row["id"]`, `row["reportname"]`, `row["account.name"]`, `row["date"]`). -/
structure Row where
  id : Str
  reportname : Str
  accountName : Str
  date : Str
  deriving DecidableEq, Repr

/-- The filename built at app.py lines 114–118:
`f"{safe_filename(reportname)}_{safe_filename(account.name)}_{safe_filename(date)}_({rid}).pdf"`.
Note `rid` is interpolated unsanitized. -/
def mkFilename (row : Row) : Str :=
  safe_filename row.reportname ++ "_".toList ++
  safe_filename row.accountName ++ "_".toList ++
  safe_filename row.date ++ "_(".toList ++
  row.id ++ ").pdf".toList

/-- The bytes of `b"%PDF"`: `%` `P` `D` `F`. -/
def pdfMagic : Bytes := [37, 80, 68, 70]

/-- `content.startswith(prefixBytes)` on Python bytes. -/
def bytesStartWith (p l : Bytes) : Bool := l.take p.length == p

/-- Per-row outcome as the loop reports it: `st.success` with the saved
filename and bytes (lines 128–135), or the `st.error` of the except branch
(line 124: identifier and exception text), or the `st.error` of the
status/signature branch (line 137: identifier and status). -/
inductive RowResult where
  | success (filename : Str) (content : Bytes)
  | exnFailure (rid : Str) (msg : Str)
  | statusFailure (rid : Str) (status : Nat)
  deriving DecidableEq, Repr

/-- Lines 121–137 for one row, given the outcome of
`session.get(pdf_url, timeout=20)`. -/
def processRow (out : HttpOutcome Bytes) (row : Row) : RowResult :=
  match out with
  | .exn m => .exnFailure row.id m                        -- lines 123–125
  | .resp status content =>
    if status = 200 ∧ bytesStartWith pdfMagic content = true
    then .success (mkFilename row) content                -- lines 127–135
    else .statusFailure row.id status                     -- lines 136–137

/-- The archive write a row causes: `zf.writestr(filename, r.content)` runs
exactly in the success branch (line 128). -/
def successEntry : RowResult → Option (Str × Bytes)
  | .success f b => some (f, b)
  | _ => none

/-- State threaded through the `for idx, row in df.iterrows()` loop: the
shared session (line 105; the loop body never assigns to it), the zip
entries written so far (lines 108–109, 128), the per-row status output in
order, and the URLs requested so far (line 122). -/
structure LoopState (S : Type) where
  sess : S
  archive : List (Str × Bytes)
  log : List RowResult
  requests : List Str

/-- One iteration of the loop body (app.py lines 112–137).  `oracle`
models the network: the response `session.get(url)` yields for this session
and URL. -/
def stepRow {S : Type} (oracle : S → Str → HttpOutcome Bytes) (rbu : Str)
    (st : LoopState S) (row : Row) : LoopState S :=
  let url := rbu ++ row.id                         -- line 120
  let res := processRow (oracle st.sess url) row   -- lines 121–137
  { sess := st.sess
    archive := st.archive ++ (successEntry res).toList
    log := st.log ++ [res]
    requests := st.requests ++ [url] }

/-- The whole fetch loop (lines 108–139): start with an empty zip buffer and
run the body over every row in order; `zf.close()` then finalizes exactly the
entries written. -/
def fetchAll {S : Type} (sess : S) (rows : List Row)
    (oracle : S → Str → HttpOutcome Bytes) (rbu : Str) : LoopState S :=
  rows.foldl (stepRow oracle rbu) ⟨sess, [], [], []⟩

/-- The constant path of app.py line 103. -/
def patrolPath : Str := "/patrol/default/viewreportprintable/idreport/".toList

/-- `report_base_url = urljoin(base_url, "/patrol/default/viewreportprintable/idreport/")`
(app.py line 103). -/
def report_base_url (baseUrl : Str) : Str := urljoinModel baseUrl patrolPath

/-- `pdf_url = f"{report_base_url}{rid}"` (app.py line 120). -/
def pdf_url (baseUrl rid : Str) : Str := report_base_url baseUrl ++ rid

/-! ### CSV validation and the batch (app.py lines 88–146) -/

/-- The uploaded CSV as pandas presents it: its header and its rows (here
already projected to the four fields the loop reads; extra columns are
ignored by the loop). -/
structure DataFrame where
  columns : List Str
  rows : List Row

/-- `required_cols = {"id", "reportname", "account.name", "date"}`
(app.py line 95). -/
def requiredCols : List Str :=
  ["id".toList, "reportname".toList, "account.name".toList, "date".toList]

/-- `required_cols.issubset(df.columns)` (app.py line 96). -/
def requiredColsPresent (df : DataFrame) : Bool :=
  requiredCols.all (fun c => df.columns.contains c)

/-- The fatal error of app.py lines 96–98 (`st.error(...)` then `st.stop()`). -/
inductive BatchError where
  | missingColumns
  deriving DecidableEq, Repr

/-- Lines 95–139: validate the columns; on failure stop before anything else
(`st.stop()`), otherwise run the fetch loop over all rows. -/
def runBatch {S : Type} (sess : S) (df : DataFrame)
    (oracle : S → Str → HttpOutcome Bytes) (baseUrl : Str) :
    Except BatchError (LoopState S) :=
  if requiredColsPresent df = true then
    .ok (fetchAll sess df.rows oracle (report_base_url baseUrl))
  else
    .error .missingColumns

/-- The report URLs a batch run requests (empty when validation stopped it
before the loop). -/
def batchRequests {S : Type} (sess : S) (df : DataFrame)
    (oracle : S → Str → HttpOutcome Bytes) (baseUrl : Str) : List Str :=
  match runBatch sess df oracle baseUrl with
  | .ok st => st.requests
  | .error _ => []

/-! ### Helper lemmas about the fetch loop -/

/-- `content.startswith(b"%PDF")` agrees with the list-prefix relation. -/
theorem bytesStartWith_iff (p l : Bytes) : bytesStartWith p l = true ↔ p <+: l := by
  rw [bytesStartWith, beq_iff_eq, List.prefix_iff_eq_take, eq_comm]

/-- Closed form of the fetch loop from an arbitrary intermediate state. -/
theorem foldl_stepRow_spec {S : Type} (oracle : S → Str → HttpOutcome Bytes) (rbu : Str) :
    ∀ (rows : List Row) (st : LoopState S),
      rows.foldl (stepRow oracle rbu) st =
        ⟨st.sess,
         st.archive ++
           (rows.map fun row => processRow (oracle st.sess (rbu ++ row.id)) row).filterMap
             successEntry,
         st.log ++ rows.map fun row => processRow (oracle st.sess (rbu ++ row.id)) row,
         st.requests ++ rows.map fun row => rbu ++ row.id⟩
  | [], st => by simp
  | row :: rows, st => by
    rw [List.foldl_cons, foldl_stepRow_spec oracle rbu rows]
    cases h : successEntry (processRow (oracle st.sess (rbu ++ row.id)) row) <;>
      simp [stepRow, h, List.filterMap_cons]

/-- Closed form of `fetchAll`. -/
theorem fetchAll_spec {S : Type} (sess : S) (rows : List Row)
    (oracle : S → Str → HttpOutcome Bytes) (rbu : Str) :
    fetchAll sess rows oracle rbu =
      ⟨sess,
       (rows.map fun row => processRow (oracle sess (rbu ++ row.id)) row).filterMap successEntry,
       rows.map fun row => processRow (oracle sess (rbu ++ row.id)) row,
       rows.map fun row => rbu ++ row.id⟩ := by
  rw [fetchAll, foldl_stepRow_spec]
  simp

/-- C4: every forbidden character in `s` is replaced in place by `_`, every
other character is preserved exactly in place, the output never contains a
forbidden character, its length equals the input's, and an input with no
forbidden character is returned unchanged. -/
theorem safe_filename_spec (s : Str) :
    (∀ c ∈ safe_filename s, c ∉ forbiddenChars) ∧
    (safe_filename s).length = s.length ∧
    (∀ (i : Nat) (h1 : i < s.length) (h2 : i < (safe_filename s).length),
      (s.get ⟨i, h1⟩ ∉ forbiddenChars → (safe_filename s).get ⟨i, h2⟩ = s.get ⟨i, h1⟩) ∧
      (s.get ⟨i, h1⟩ ∈ forbiddenChars → (safe_filename s).get ⟨i, h2⟩ = '_')) ∧
    ((∀ c ∈ s, c ∉ forbiddenChars) → safe_filename s = s) := by
  refine ⟨?_, ?_, ?_, ?_⟩
  · intro c hc
    rw [safe_filename, List.mem_map] at hc
    obtain ⟨a, -, rfl⟩ := hc
    by_cases h : a ∈ forbiddenChars
    · simp only [h, if_true]
      decide
    · simp [h]
  · simp [safe_filename]
  · intro i h1 h2
    have hg : (safe_filename s).get ⟨i, h2⟩ =
        (if s.get ⟨i, h1⟩ ∈ forbiddenChars then '_' else s.get ⟨i, h1⟩) := by
      simp [safe_filename, List.get_eq_getElem, List.getElem_map]
    constructor <;> intro h <;> rw [hg] <;>
      simp only [List.get_eq_getElem] at h ⊢ <;> simp [h]
  · intro h
    conv_rhs => rw [← List.map_id s]
    rw [safe_filename]
    exact List.map_congr_left fun a ha => by simp [h a ha]

/-- Closed witness for `safe_filename_spec`. -/
theorem safe_filename_spec_witness :
    safe_filename "a b".toList = "a b".toList :=
  (safe_filename_spec "a b".toList).2.2.2 (by decide)

/-- C7: the output filename is exactly
`sanitize(reportname) ++ "_" ++ sanitize(accountName) ++ "_" ++ sanitize(date)
++ "_(" ++ id ++ ").pdf"`, it is a deterministic function of the four fields,
and two rows agreeing on the three labels but differing in `id` get distinct
filenames. -/
theorem filename_scheme_spec :
    (∀ row : Row, mkFilename row =
      safe_filename row.reportname ++ "_".toList ++
      safe_filename row.accountName ++ "_".toList ++
      safe_filename row.date ++ "_(".toList ++ row.id ++ ").pdf".toList) ∧
    (∀ r1 r2 : Row, r1.reportname = r2.reportname → r1.accountName = r2.accountName →
      r1.date = r2.date →
      ((r1.id = r2.id → mkFilename r1 = mkFilename r2) ∧
       (mkFilename r1 = mkFilename r2 → r1.id = r2.id))) := by
  refine ⟨fun row => rfl, fun r1 r2 h1 h2 h3 => ⟨fun h4 => ?_, fun h => ?_⟩⟩
  · simp only [mkFilename, h1, h2, h3, h4]
  · simp only [mkFilename, h1, h2, h3] at h
    exact List.append_cancel_left (List.append_cancel_right h)

/-- Closed witness for `filename_scheme_spec`: a concrete row's filename,
with the forbidden `:` and `/` in its labels replaced. -/
theorem filename_scheme_spec_witness :
    mkFilename ⟨"7".toList, "r:1".toList, "ac/me".toList, "2024-01-02".toList⟩ =
      "r_1_ac_me_2024-01-02_(7).pdf".toList :=
  (filename_scheme_spec.1 ⟨"7".toList, "r:1".toList, "ac/me".toList, "2024-01-02".toList⟩).trans
    (by decide)

/-- C9: the fetch loop never mutates the session: after `fetchAll` the
session component of the loop state is the very session the login step
supplied (the loop body reads it at every `session.get` and never rebinds
it). -/
theorem fetch_session_frame {S : Type} (sess : S) (rows : List Row)
    (oracle : S → Str → HttpOutcome Bytes) (rbu : Str) :
    (fetchAll sess rows oracle rbu).sess = sess := by
  rw [fetchAll_spec]

/-- C2: every row is processed (one log entry per row, in order, each the
outcome of that row's own response), and the archive holds exactly the
successful entries of the log; failures carry the identifier and status (or
exception text) by the shape of `processRow`. -/
theorem fetch_failures_independent {S : Type} (sess : S) (rows : List Row)
    (oracle : S → Str → HttpOutcome Bytes) (rbu : Str) :
    (fetchAll sess rows oracle rbu).log =
      rows.map (fun row => processRow (oracle sess (rbu ++ row.id)) row) ∧
    (fetchAll sess rows oracle rbu).log.length = rows.length ∧
    (fetchAll sess rows oracle rbu).archive =
      (fetchAll sess rows oracle rbu).log.filterMap successEntry := by
  rw [fetchAll_spec]
  exact ⟨rfl, by simp, rfl⟩

/-- C10: the archive keeps one entry per successful row in processing order
with no deduplication — in particular a list made of the same successful row
twice yields two archive entries bearing the same filename. -/
theorem archive_not_deduplicated {S : Type} (sess : S) (rows : List Row)
    (oracle : S → Str → HttpOutcome Bytes) (rbu : Str) (row : Row) (content : Bytes)
    (hresp : oracle sess (rbu ++ row.id) = .resp 200 content)
    (hpdf : pdfMagic <+: content) :
    (fetchAll sess rows oracle rbu).archive =
      (rows.map fun r => processRow (oracle sess (rbu ++ r.id)) r).filterMap successEntry ∧
    (fetchAll sess [row, row] oracle rbu).archive =
      [(mkFilename row, content), (mkFilename row, content)] := by
  have hb : bytesStartWith pdfMagic content = true := (bytesStartWith_iff _ _).mpr hpdf
  constructor
  · rw [fetchAll_spec]
  · rw [fetchAll_spec]
    simp [processRow, hresp, hb, successEntry]

/-- Closed witness for `archive_not_deduplicated`: two identical rows, both
fetched successfully, give the same filename twice in the archive. -/
theorem archive_not_deduplicated_witness :
    (fetchAll () [⟨"7".toList, "r".toList, "a".toList, "d".toList⟩,
                  ⟨"7".toList, "r".toList, "a".toList, "d".toList⟩]
        (fun _ _ => .resp 200 [37, 80, 68, 70, 9]) []).archive =
      [(mkFilename ⟨"7".toList, "r".toList, "a".toList, "d".toList⟩, [37, 80, 68, 70, 9]),
       (mkFilename ⟨"7".toList, "r".toList, "a".toList, "d".toList⟩, [37, 80, 68, 70, 9])] :=
  (archive_not_deduplicated () []
    (fun _ _ => .resp 200 [37, 80, 68, 70, 9]) []
    ⟨"7".toList, "r".toList, "a".toList, "d".toList⟩ [37, 80, 68, 70, 9]
    rfl (by decide)).2

/-- C5: a spreadsheet missing at least one of the required columns `id`,
`reportname`, `account.name`, `date` is rejected as a whole before the loop
runs: the batch ends in the validation error and no report URL is ever
requested. -/
theorem missing_columns_rejects_batch {S : Type} (sess : S) (df : DataFrame)
    (oracle : S → Str → HttpOutcome Bytes) (baseUrl : Str)
    (h : ∃ c ∈ requiredCols, c ∉ df.columns) :
    runBatch sess df oracle baseUrl = .error .missingColumns ∧
    batchRequests sess df oracle baseUrl = [] := by
  have hp : requiredColsPresent df = false := by
    obtain ⟨c, hc, hnc⟩ := h
    rw [requiredColsPresent, List.all_eq_false]
    exact ⟨c, hc, by simpa using hnc⟩
  constructor
  · simp [runBatch, hp]
  · simp [batchRequests, runBatch, hp]

/-- Closed witness for `missing_columns_rejects_batch`: a CSV with no
columns at all is rejected and performs no request. -/
theorem missing_columns_rejects_batch_witness :
    runBatch () ⟨[], []⟩ (fun _ _ => .exn []) [] = .error .missingColumns ∧
    batchRequests () ⟨[], []⟩ (fun _ _ => .exn []) [] = [] :=
  missing_columns_rejects_batch () ⟨[], []⟩ (fun _ _ => .exn []) []
    ⟨"id".toList, by decide, by decide⟩

/-- C1: a fetched row is recorded as a success with exactly the response
body bytes — and those bytes appended to the archive — if and only if the
response status is 200 and the body starts with the 4 bytes `%PDF`; in
particular a 200 response without the signature yields a failure entry
carrying the identifier and status 200, and leaves the archive unchanged. -/
theorem pdf_validation_spec {S : Type} (oracle : S → Str → HttpOutcome Bytes) (rbu : Str)
    (st : LoopState S) (row : Row) (status : Nat) (content : Bytes)
    (hresp : oracle st.sess (rbu ++ row.id) = .resp status content) :
    (((stepRow oracle rbu st row).log =
        st.log ++ [RowResult.success (mkFilename row) content] ∧
      (stepRow oracle rbu st row).archive = st.archive ++ [(mkFilename row, content)]) ↔
      (status = 200 ∧ pdfMagic <+: content)) ∧
    (status = 200 → ¬ pdfMagic <+: content →
      (stepRow oracle rbu st row).log = st.log ++ [RowResult.statusFailure row.id 200] ∧
      (stepRow oracle rbu st row).archive = st.archive) := by
  by_cases hcond : status = 200 ∧ bytesStartWith pdfMagic content = true
  · have hpdf := (bytesStartWith_iff _ _).mp hcond.2
    constructor
    · simp [stepRow, processRow, hresp, hcond, successEntry, hcond.1, hpdf]
    · intro _ hn
      exact absurd hpdf hn
  · have hfail : processRow (HttpOutcome.resp status content) row =
        .statusFailure row.id status := by
      simp only [processRow]
      rw [if_neg hcond]
    constructor
    · constructor
      · rintro ⟨hlog, -⟩
        simp [stepRow, hresp, hfail] at hlog
      · intro hc
        exact absurd ⟨hc.1, (bytesStartWith_iff _ _).mpr hc.2⟩ hcond
    · intro h200 hnpdf
      subst h200
      constructor <;> simp [stepRow, hresp, hfail, successEntry]

/-- Closed witness for `pdf_validation_spec`: a 200 response whose body is
exactly `b"%PDFx"` is archived with exactly those bytes. -/
theorem pdf_validation_spec_witness :
    (stepRow (fun _ _ => HttpOutcome.resp 200 [37, 80, 68, 70, 120]) []
        ⟨(), [], [], []⟩ ⟨"7".toList, "r".toList, "a".toList, "d".toList⟩).archive =
      [(mkFilename ⟨"7".toList, "r".toList, "a".toList, "d".toList⟩, [37, 80, 68, 70, 120])] := by
  have h := (pdf_validation_spec (fun _ _ => HttpOutcome.resp 200 [37, 80, 68, 70, 120]) []
    ⟨(), [], [], []⟩ ⟨"7".toList, "r".toList, "a".toList, "d".toList⟩ 200
    [37, 80, 68, 70, 120] rfl).1.mpr ⟨rfl, by decide⟩
  simpa using h.2

/-- Helper: once the login page loaded with status 200 and a CSRF input was
found, `perform_login` is the three-way classification of the POST
response. -/
theorem perform_login_classify {S : Type} (username password pageBody body : Str)
    (status : Nat) (env : LoginEnv S) (ti : TokenInput)
    (hget : env.getPage = .resp 200 pageBody)
    (hfind : env.findTokenInput pageBody = some ti)
    (hpost : env.post (mkPayload username password ti.value) = .resp status body) :
    perform_login username password env =
      (if status = 200 ∧ containsLogout body = true then
        ⟨some env.newSession, .loginSuccessful, some (mkPayload username password ti.value)⟩
      else if status = 200 ∨ status = 302 then
        ⟨some env.newSession, .loginSent, some (mkPayload username password ti.value)⟩
      else
        ⟨none, .loginFailed status, some (mkPayload username password ti.value)⟩) := by
  simp [perform_login, hget, hfind, hpost]

/-- C3 (amended): once the POST response is in hand, the login outcome is the
three-way classification — status 200 with `logout` in the lowercased body
returns the session as full success; status 200 or 302 in every other case
(including 302 with `logout` in the body) returns the session as the soft
success; any other status returns no session and the failure message with
that status. -/
theorem login_trichotomy {S : Type} (username password pageBody body : Str)
    (status : Nat) (env : LoginEnv S) (ti : TokenInput)
    (hget : env.getPage = .resp 200 pageBody)
    (hfind : env.findTokenInput pageBody = some ti)
    (hpost : env.post (mkPayload username password ti.value) = .resp status body) :
    (status = 200 ∧ containsLogout body = true →
      perform_login username password env =
        ⟨some env.newSession, .loginSuccessful, some (mkPayload username password ti.value)⟩) ∧
    ((status = 200 ∨ status = 302) ∧ ¬(status = 200 ∧ containsLogout body = true) →
      perform_login username password env =
        ⟨some env.newSession, .loginSent, some (mkPayload username password ti.value)⟩) ∧
    (¬(status = 200 ∨ status = 302) →
      perform_login username password env =
        ⟨none, .loginFailed status, some (mkPayload username password ti.value)⟩) := by
  have hstep := perform_login_classify username password pageBody body status env ti
    hget hfind hpost
  refine ⟨fun h => ?_, fun h => ?_, fun h => ?_⟩
  · rw [hstep, if_pos h]
  · rw [hstep, if_neg h.2, if_pos h.1]
  · rw [hstep, if_neg (fun hc => h (Or.inl hc.1)), if_neg h]

/-- Closed witness for `login_trichotomy`: a 200 POST response whose body
contains `Logout` yields the full success with the session. -/
theorem login_trichotomy_witness :
    perform_login "u".toList "p".toList
        (⟨(), .resp 200 "pg".toList, fun _ => some ⟨some "t".toList⟩,
          fun _ => .resp 200 "<a>Logout</a>".toList⟩ : LoginEnv Unit) =
      ⟨some (), .loginSuccessful, some (mkPayload "u".toList "p".toList (some "t".toList))⟩ :=
  (login_trichotomy "u".toList "p".toList "pg".toList "<a>Logout</a>".toList 200 _
    ⟨some "t".toList⟩ rfl rfl rfl).1 ⟨rfl, by decide⟩

/-- C3 counterexample: at status 302 with body `logout` the code returns the
session with the soft-success message, yet none of the claim's three cases
covers this response — its full-success condition needs status 200, its
soft-success condition needs the substring to be absent, and its failure
condition needs a status other than 200/302. -/
theorem login_trichotomy_cx :
    perform_login "u".toList "p".toList
        (⟨(), .resp 200 "pg".toList, fun _ => some ⟨some "t".toList⟩,
          fun _ => .resp 302 "logout".toList⟩ : LoginEnv Unit) =
      ⟨some (), .loginSent, some (mkPayload "u".toList "p".toList (some "t".toList))⟩ ∧
    ¬(302 = 200 ∧ containsLogout "logout".toList = true) ∧
    ¬((302 = 200 ∨ 302 = 302) ∧ containsLogout "logout".toList = false) ∧
    (302 = 200 ∨ 302 = 302) := by
  refine ⟨?_, by decide, by decide, by decide⟩
  rfl

/-- C6 (amended): when the login page parses to no `_csrf_token` input
element at all, `perform_login` returns no session, the token-not-found
message, and no POST is attempted; but when the element exists with its
`value` attribute absent, the code does NOT stop — it proceeds to POST with
an absent token value. -/
theorem csrf_token_guard {S : Type} (username password pageBody : Str) (env : LoginEnv S)
    (hget : env.getPage = .resp 200 pageBody) :
    (env.findTokenInput pageBody = none →
      perform_login username password env = ⟨none, .tokenNotFound, none⟩) ∧
    (∀ ti : TokenInput, env.findTokenInput pageBody = some ti → ti.value = none →
      (perform_login username password env).posted =
        some (mkPayload username password none)) := by
  constructor
  · intro hfind
    simp [perform_login, hget, hfind]
  · intro ti hfind hv
    cases hp : env.post (mkPayload username password none) with
    | exn m => simp [perform_login, hget, hfind, hv, hp]
    | resp s b =>
      simp only [perform_login, hget, hfind, hv, hp]
      split_ifs <;> simp_all

/-- Closed witness for `csrf_token_guard`: a page with no `_csrf_token`
input ends the login with the token-not-found message and no POST. -/
theorem csrf_token_guard_witness :
    perform_login "u".toList "p".toList
        (⟨(), .resp 200 "pg".toList, fun _ => none, fun _ => .exn []⟩ : LoginEnv Unit) =
      ⟨none, .tokenNotFound, none⟩ :=
  (csrf_token_guard "u".toList "p".toList "pg".toList _ rfl).1 rfl

/-- C6 counterexample: with a `_csrf_token` input present but its `value`
attribute absent, the code does not return the token-not-found error — the
POST is attempted (with no token) and the login fails only on the POST's
own status. -/
theorem csrf_token_guard_cx :
    (perform_login "u".toList "p".toList
        (⟨(), .resp 200 "pg".toList, fun _ => some ⟨none⟩,
          fun _ => .resp 500 "err".toList⟩ : LoginEnv Unit)).posted =
      some (mkPayload "u".toList "p".toList none) ∧
    (perform_login "u".toList "p".toList
        (⟨(), .resp 200 "pg".toList, fun _ => some ⟨none⟩,
          fun _ => .resp 500 "err".toList⟩ : LoginEnv Unit)).msg ≠ .tokenNotFound := by
  constructor
  · rfl
  · decide

/-- C8 counterexample: with the UI's placeholder base URL (which ends in a
slash), `urljoin` does not produce the naive concatenation of the base URL
and the report path — the naive concatenation would contain `//`. -/
theorem report_url_cx :
    report_base_url "https://client.tracktik.com/".toList ≠
      "https://client.tracktik.com/".toList ++ patrolPath ∧
    report_base_url "https://client.tracktik.com/".toList =
      "https://client.tracktik.com/patrol/default/viewreportprintable/idreport/".toList := by
  constructor <;> decide

/-- C8 (amended): the report URL is the plain concatenation of the report
base URL and the row's `id` with no separator; the report base URL is the
scheme-and-authority part of the base URL followed by
`/patrol/default/viewreportprintable/idreport/` (an absolute-path `urljoin`
replaces any path the base URL already has), which coincides with plain
concatenation exactly when the base URL is scheme and authority only. -/
theorem report_url_spec (baseUrl rid : Str) :
    pdf_url baseUrl rid = report_base_url baseUrl ++ rid ∧
    report_base_url baseUrl = schemeAuthority baseUrl ++ patrolPath ∧
    (schemeAuthority baseUrl = baseUrl →
      report_base_url baseUrl = baseUrl ++ patrolPath) := by
  refine ⟨rfl, rfl, fun h => ?_⟩
  calc report_base_url baseUrl = schemeAuthority baseUrl ++ patrolPath := rfl
    _ = baseUrl ++ patrolPath := by rw [h]

/-- Closed witness for `report_url_spec`: a base URL with no path gets the
report path appended directly. -/
theorem report_url_spec_witness :
    report_base_url "https://x.com".toList = "https://x.com".toList ++ patrolPath :=
  (report_url_spec "https://x.com".toList []).2.2 (by decide)
